import Mathlib

/-!
Verification of the LIN master engine (LIN_master.cpp / LIN_master.h).

The C++ sources are shallowly embedded: the pure frame codec
(`protectID`, `checksum`) becomes pure functions on `ℕ` (bytes are
naturals, with `% 256` / masking exactly where the C code truncates),
and the stateful engine becomes explicit state passing on a `Master`
structure.  Serial input available to a handler within its busy-wait
window is passed as an explicit list of bytes; the callback
`rx_handler` invocation is returned as an `Option (ℕ × List ℕ)` value.
-/

namespace LIN

/-- LIN protocol version (`LIN_version_t` in LIN_master.h). -/
inductive LIN_version_t where
  | LIN_V1
  | LIN_V2
  deriving DecidableEq

export LIN_version_t (LIN_V1 LIN_V2)

/-- LIN frame type (`LIN_frame_t` in LIN_master.h). -/
inductive LIN_frame_t where
  | LIN_MASTER_REQUEST
  | LIN_SLAVE_RESPONSE
  deriving DecidableEq

export LIN_frame_t (LIN_MASTER_REQUEST LIN_SLAVE_RESPONSE)

/-- State of the LIN master state machine (`LIN_status_t` in LIN_master.h). -/
inductive LIN_status_t where
  | LIN_STATE_OFF
  | LIN_STATE_IDLE
  | LIN_STATE_BREAK
  | LIN_STATE_FRAME
  deriving DecidableEq

export LIN_status_t (LIN_STATE_OFF LIN_STATE_IDLE LIN_STATE_BREAK LIN_STATE_FRAME)

/-- Numeric value of each engine state, as assigned by the C enum. -/
def statusCode : LIN_status_t → ℕ
  | LIN_STATE_OFF => 0
  | LIN_STATE_IDLE => 1
  | LIN_STATE_BREAK => 2
  | LIN_STATE_FRAME => 3

/-- Error code `LIN_SUCCESS` (0x00). -/
def LIN_SUCCESS : ℕ := 0x00

/-- Error flag `LIN_ERROR_STATE` (0x01). -/
def LIN_ERROR_STATE : ℕ := 0x01

/-- Error flag `LIN_ERROR_ECHO` (0x02). -/
def LIN_ERROR_ECHO : ℕ := 0x02

/-- Error flag `LIN_ERROR_TIMEOUT` (0x04). -/
def LIN_ERROR_TIMEOUT : ℕ := 0x04

/-- Error flag `LIN_ERROR_CHK` (0x08). -/
def LIN_ERROR_CHK : ℕ := 0x08

/-- Error flag `LIN_ERROR_MISC` (0x80). -/
def LIN_ERROR_MISC : ℕ := 0x80

/-- `LIN_Master::protectID` (LIN_master.cpp lines 79-97): mask the input
to its low 6 bits, then pack the two LIN 2.x parity bits into bits 6
and 7.  The C complement `~x & 0x01` of bit 0 is written `(x ^^^ 1) &&& 0x01`. -/
def protectID (id : ℕ) : ℕ :=
  let pid := id &&& 0x3F
  let tmp := (pid ^^^ (pid >>> 1) ^^^ (pid >>> 2) ^^^ (pid >>> 4)) &&& 0x01
  let pid := pid ||| (tmp <<< 6)
  let tmp := (((pid >>> 1) ^^^ (pid >>> 3) ^^^ (pid >>> 4) ^^^ (pid >>> 5)) ^^^ 1) &&& 0x01
  pid ||| (tmp <<< 7)

/-- One iteration of the checksum loop body of `LIN_Master::checksum`
(LIN_master.cpp lines 123-128): add a byte into the 16-bit accumulator
and apply the end-around carry. -/
def chkStep (a b : ℕ) : ℕ :=
  if a + b > 255 then a + b - 255 else a + b

/-- The checksum accumulation loop of `LIN_Master::checksum`, folding
`chkStep` over the data bytes starting from a seed. -/
def chkFold (seed : ℕ) (l : List ℕ) : ℕ :=
  l.foldl chkStep seed

/-- `LIN_Master::checksum` (LIN_master.cpp lines 109-134): protect the
ID, seed the accumulator with the protected ID unless the frame is
version 1 or a diagnostic frame (protected ID 0x3C or 0x7D), fold the
first `numData` data bytes through the end-around-carry step, and
return the bitwise complement of the low byte. -/
def checksum (version : LIN_version_t) (id numData : ℕ) (data : List ℕ) : ℕ :=
  let pid := protectID id
  let seed := if version = LIN_V1 ∨ pid = 0x3C ∨ pid = 0x7D then 0 else pid
  255 - (chkFold seed (data.take numData)) % 256

/-- The classic (data-only) LIN checksum: the accumulator is seeded
with 0 and only the data bytes contribute. -/
def classicChecksum (numData : ℕ) (data : List ℕ) : ℕ :=
  255 - (chkFold 0 (data.take numData)) % 256

/-- Modelled from the spec's words, for comparison with `checksum`:
the accumulator is seeded with the protected ID exactly when the
version is V2 and the protected ID is neither 0x3C nor 0x7D, and in
every other case the result is the classic data-only checksum. -/
def checksumSpec (version : LIN_version_t) (id numData : ℕ) (data : List ℕ) : ℕ :=
  let pid := protectID id
  if version = LIN_V2 ∧ pid ≠ 0x3C ∧ pid ≠ 0x7D then
    255 - (chkFold pid (data.take numData)) % 256
  else
    classicChecksum numData data

/-- C2: for every id and every payload, `checksum` equals the
spec-side description: the complement of the low byte of an
end-around-carry accumulator, seeded with the protected ID exactly
when the version is V2 and the protected ID is neither 0x3C nor 0x7D,
and the classic data-only checksum otherwise (in particular for the
diagnostic protected IDs 0x3C and 0x7D and for all version-1 frames). -/
theorem checksum_matches_spec (version : LIN_version_t) (id numData : ℕ) (data : List ℕ) :
    checksum version id numData data = checksumSpec version id numData data := by
  unfold checksum checksumSpec classicChecksum
  cases version with
  | LIN_V1 => simp
  | LIN_V2 =>
      by_cases h3c : protectID id = 0x3C
      · simp [h3c]
      · by_cases h7d : protectID id = 0x7D
        · simp [h3c, h7d]
        · simp [h3c, h7d]

set_option maxRecDepth 100000 in
set_option maxHeartbeats 1000000 in
/-- Helper for C3, decided exhaustively over all 256 byte values. -/
theorem protectID_spec_fin : ∀ i : Fin 256,
    (protectID i.val &&& 0x3F = i.val &&& 0x3F) ∧
    ((protectID i.val >>> 6) &&& 1 =
      (i.val ^^^ (i.val >>> 1) ^^^ (i.val >>> 2) ^^^ (i.val >>> 4)) &&& 1) ∧
    ((protectID i.val >>> 7) &&& 1 =
      (((i.val >>> 1) ^^^ (i.val >>> 3) ^^^ (i.val >>> 4) ^^^ (i.val >>> 5)) &&& 1) ^^^ 1) ∧
    (protectID (protectID i.val) = protectID i.val) := by decide

/-- C3: for every 8-bit input, `protectID` leaves the low 6 bits
unchanged, sets bit 6 to id0^id1^id2^id4 and bit 7 to the complement
of id1^id3^id4^id5, and is idempotent: protecting an already protected
ID returns it unchanged. -/
theorem protectID_parity_idempotent (id : ℕ) (h : id < 256) :
    (protectID id &&& 0x3F = id &&& 0x3F) ∧
    ((protectID id >>> 6) &&& 1 =
      (id ^^^ (id >>> 1) ^^^ (id >>> 2) ^^^ (id >>> 4)) &&& 1) ∧
    ((protectID id >>> 7) &&& 1 =
      (((id >>> 1) ^^^ (id >>> 3) ^^^ (id >>> 4) ^^^ (id >>> 5)) &&& 1) ^^^ 1) ∧
    (protectID (protectID id) = protectID id) :=
  protectID_spec_fin ⟨id, h⟩

/-- Witness for C3 at the concrete input 0x10. -/
theorem protectID_parity_idempotent_witness :
    (protectID 0x10 &&& 0x3F = 0x10 &&& 0x3F) ∧
    ((protectID 0x10 >>> 6) &&& 1 =
      (0x10 ^^^ (0x10 >>> 1) ^^^ (0x10 >>> 2) ^^^ (0x10 >>> 4)) &&& 1) ∧
    ((protectID 0x10 >>> 7) &&& 1 =
      (((0x10 >>> 1) ^^^ (0x10 >>> 3) ^^^ (0x10 >>> 4) ^^^ (0x10 >>> 5)) &&& 1) ^^^ 1) ∧
    (protectID (protectID 0x10) = protectID 0x10) :=
  protectID_parity_idempotent 0x10 (by decide)

set_option maxRecDepth 100000 in
set_option maxHeartbeats 1000000 in
/-- Bound on `protectID`, decided exhaustively over all 256 byte values. -/
theorem protectID_lt_fin : ∀ i : Fin 256, protectID i.val < 256 := by decide

/-- Bound on `protectID` for byte-sized inputs. -/
theorem protectID_lt (id : ℕ) (h : id < 256) : protectID id < 256 :=
  protectID_lt_fin ⟨id, h⟩

/-- One checksum step preserves the value modulo 255. -/
theorem chkStep_modEq (a b : ℕ) : chkStep a b ≡ a + b [MOD 255] := by
  unfold chkStep Nat.ModEq
  split <;> omega

/-- The checksum accumulator is congruent to seed plus byte sum modulo 255. -/
theorem chkFold_modEq (l : List ℕ) : ∀ seed : ℕ, chkFold seed l ≡ seed + l.sum [MOD 255] := by
  induction l with
  | nil => intro seed; simp [chkFold, Nat.ModEq.refl]
  | cons x xs ih =>
      intro seed
      have hs : chkStep seed x ≡ seed + x [MOD 255] := chkStep_modEq seed x
      have h2 : chkFold (chkStep seed x) xs ≡ seed + x + xs.sum [MOD 255] :=
        (ih (chkStep seed x)).trans (Nat.ModEq.add_right xs.sum hs)
      calc chkFold seed (x :: xs) = chkFold (chkStep seed x) xs := rfl
        _ ≡ seed + x + xs.sum [MOD 255] := h2
        _ = seed + (x :: xs).sum := by simp [List.sum_cons, Nat.add_assoc]

/-- The checksum accumulator stays a byte-sized value (≤ 255) when the
seed and all data bytes are byte-sized. -/
theorem chkFold_le (l : List ℕ) :
    ∀ seed : ℕ, seed ≤ 255 → (∀ x ∈ l, x ≤ 255) → chkFold seed l ≤ 255 := by
  induction l with
  | nil => intro seed h _; simpa [chkFold] using h
  | cons x xs ih =>
      intro seed hs hl
      have hx : x ≤ 255 := hl x (List.mem_cons_self x xs)
      have hstep : chkStep seed x ≤ 255 := by unfold chkStep; split <;> omega
      exact ih (chkStep seed x) hstep (fun y hy => hl y (List.mem_cons_of_mem _ hy))

/-- Unfolding equation for `checksum`. -/
theorem checksum_eq (version : LIN_version_t) (id numData : ℕ) (data : List ℕ) :
    checksum version id numData data =
      255 - (chkFold
        (if version = LIN_V1 ∨ protectID id = 0x3C ∨ protectID id = 0x7D then 0
          else protectID id) (data.take numData)) % 256 := rfl

/-- C1 counterexample: single-byte corruption is not always detected
by `checksum`.  In version 1 the protected ID does not enter the
checksum at all (0x80 is the protected form of ID 0, corrupted to
0x00); in version 2 a parity-bit corruption of the protected ID is
masked because `checksum` re-protects its ID argument (0x11 corrupted
to 0x91); and a payload byte changed between 0x00 and 0xFF aliases
modulo 255 in the end-around-carry sum whenever a later byte is
non-zero. -/
theorem checksum_single_corruption_cex :
    ((0x80 : ℕ) ≠ 0x00 ∧
      checksum LIN_V1 0x80 0 [] = checksum LIN_V1 0x00 0 []) ∧
    ((0x11 : ℕ) ≠ 0x91 ∧
      checksum LIN_V2 0x11 2 [5, 1] = checksum LIN_V2 0x91 2 [5, 1]) ∧
    ((0 : ℕ) ≠ 255 ∧
      checksum LIN_V2 0x11 2 [0, 1] = checksum LIN_V2 0x11 2 [255, 1]) := by
  decide

/-- C1 amended: for every id, every payload of 0-8 bytes, and every
single payload-byte corruption whose old and new values are not the
pair 0x00/0xFF, the checksum over the corrupted payload differs from
the checksum over the original, for both protocol versions.
Corruption of the protected ID itself, or a 0x00 to 0xFF payload-byte
swap, can leave the checksum unchanged. -/
theorem checksum_detects_byte_change (version : LIN_version_t) (id : ℕ)
    (pre post : List ℕ) (b b' : ℕ)
    (hid : id < 256)
    (hlen : (pre ++ b :: post).length ≤ 8)
    (hpre : ∀ x ∈ pre, x ≤ 255) (hpost : ∀ x ∈ post, x ≤ 255)
    (hb : b ≤ 255) (hb' : b' ≤ 255) (hne : b ≠ b')
    (h01 : ¬(b = 0 ∧ b' = 255)) (h10 : ¬(b = 255 ∧ b' = 0)) :
    checksum version id (pre ++ b :: post).length (pre ++ b :: post) ≠
      checksum version id (pre ++ b :: post).length (pre ++ b' :: post) := by
  intro heq
  have hpid : protectID id < 256 := protectID_lt id hid
  have hL : (pre ++ b :: post).length = (pre ++ b' :: post).length := by simp
  rw [checksum_eq, checksum_eq] at heq
  rw [List.take_length] at heq
  rw [hL, List.take_length] at heq
  set t := (if version = LIN_V1 ∨ protectID id = 0x3C ∨ protectID id = 0x7D then 0
    else protectID id) with ht
  have htle : t ≤ 255 := by
    rw [ht]; split
    · omega
    · omega
  have hmemA : ∀ x ∈ pre ++ b :: post, x ≤ 255 := by
    intro x hx
    rcases List.mem_append.mp hx with h | h
    · exact hpre x h
    · rcases List.mem_cons.mp h with h | h
      · omega
      · exact hpost x h
  have hmemB : ∀ x ∈ pre ++ b' :: post, x ≤ 255 := by
    intro x hx
    rcases List.mem_append.mp hx with h | h
    · exact hpre x h
    · rcases List.mem_cons.mp h with h | h
      · omega
      · exact hpost x h
  have hA : chkFold t (pre ++ b :: post) ≤ 255 := chkFold_le _ t htle hmemA
  have hB : chkFold t (pre ++ b' :: post) ≤ 255 := chkFold_le _ t htle hmemB
  have hAB : chkFold t (pre ++ b :: post) = chkFold t (pre ++ b' :: post) := by omega
  have hcong : t + (pre ++ b :: post).sum ≡ t + (pre ++ b' :: post).sum [MOD 255] :=
    (chkFold_modEq (pre ++ b :: post) t).symm.trans
      (hAB ▸ chkFold_modEq (pre ++ b' :: post) t)
  unfold Nat.ModEq at hcong
  simp only [List.sum_append, List.sum_cons] at hcong
  omega

/-- Witness for the amended C1 at a concrete frame: version 2,
ID 0x10, payload corrupted from three bytes 1,2,3 to 1,4,3. -/
theorem checksum_detects_byte_change_witness :
    checksum LIN_V2 0x10 3 [1, 2, 3] ≠ checksum LIN_V2 0x10 3 [1, 4, 3] := by
  have h := checksum_detects_byte_change LIN_V2 0x10 [1] [3] 2 4
    (by decide) (by decide)
    (by intro x hx; simp at hx; omega) (by intro x hx; simp at hx; omega)
    (by decide) (by decide) (by decide) (by decide) (by decide)
  simpa using h

/-- The engine state of one `LIN_Master` instance: the members of the
C++ class that the protocol logic reads or writes (LIN_master.h lines
119-141).  The two 12-byte arrays `bufTx` and `bufRx` are lists of
byte values; serial-port and scheduler handles are external
collaborators and are not part of the state. -/
structure Master where
  version : LIN_version_t
  frameType : LIN_frame_t
  bufTx : List ℕ
  lenTx : ℕ
  bufRx : List ℕ
  lenRx : ℕ
  state : LIN_status_t
  error : ℕ
  deriving DecidableEq

/-- Model of `memset(buf, 0, n)` on a byte array: the first `n` cells
are zeroed, the rest keep their contents. -/
def memsetZero (n : ℕ) (l : List ℕ) : List ℕ :=
  List.replicate (min n l.length) 0 ++ l.drop n

/-- Model of `memcpy(buf + pos, bytes, bytes.length)`: write the given
bytes into the buffer starting at position `pos`. -/
def writeBytes : List ℕ → ℕ → List ℕ → List ℕ
  | buf, _, [] => buf
  | buf, pos, x :: xs => writeBytes (buf.set pos x) (pos + 1) xs

/-- The common failure epilogue appearing on every error path of the
engine (e.g. LIN_master.cpp lines 160-162, 414-416, 531-533): OR the
flag into the latched error, revert the state machine to idle, and
zero the first `lenRx` bytes of the receive buffer. -/
def failStep (m : Master) (flag : ℕ) : Master :=
  { m with error := m.error ||| flag, state := LIN_STATE_IDLE,
           bufRx := memsetZero m.lenRx m.bufRx }

/-- `LIN_Master::sendMasterRequest` (LIN_master.cpp lines 146-240): if
the state machine is not idle, latch `LIN_ERROR_STATE`, force idle,
zero the receive buffer and return the state error.  Otherwise build
the full frame BREAK+SYNC+PID+DATA+CHK in `bufTx`, set the lengths,
and move to the break state (the break byte is written to the serial
port; in background mode `handlerSend` is scheduled, in blocking mode
it is invoked by the caller flow — both are modelled as separate calls
to `handlerSend`/`handlerReceive`).  The C function falls off the end
without a return value on this path, modelled as `none`. -/
def sendMasterRequest (m : Master) (id numData : ℕ) (data : List ℕ) : Master × Option ℕ :=
  if m.state ≠ LIN_STATE_IDLE then
    (failStep m LIN_ERROR_STATE, some LIN_ERROR_STATE)
  else
    let pid := protectID id
    let tx := ((m.bufTx.set 0 0x00).set 1 0x55).set 2 pid
    let tx := writeBytes tx 3 (data.take numData)
    let tx := tx.set (3 + numData) (checksum m.version pid numData data)
    ({ m with frameType := LIN_MASTER_REQUEST, bufTx := tx,
              lenTx := numData + 4, lenRx := numData + 4,
              state := LIN_STATE_BREAK }, none)

/-- `LIN_Master::receiveSlaveResponse` (LIN_master.cpp lines 253-349):
same idle gate as `sendMasterRequest`; on acceptance only the header
BREAK+SYNC+PID is built in `bufTx`, `lenTx` is 3, `lenRx` is
4+numData, and the engine moves to the break state.  The registered
`rx_handler` callback is modelled by the invocation value returned
from `handlerReceive`. -/
def receiveSlaveResponse (m : Master) (id numData : ℕ) : Master × Option ℕ :=
  if m.state ≠ LIN_STATE_IDLE then
    (failStep m LIN_ERROR_STATE, some LIN_ERROR_STATE)
  else
    let pid := protectID id
    let tx := ((m.bufTx.set 0 0x00).set 1 0x55).set 2 pid
    ({ m with frameType := LIN_SLAVE_RESPONSE, bufTx := tx,
              lenTx := 3, lenRx := 4 + numData,
              state := LIN_STATE_BREAK }, none)

/-- `LIN_Master::handlerSend` (LIN_master.cpp lines 378-472).  `input`
is the list of bytes available on the serial port within the handler's
500 microsecond busy-wait window; an empty list is the break-echo
timeout.  On success the break echo is consumed into `bufRx[0]`, the
frame remainder is written to the port, and the state machine moves to
the frame state. -/
def handlerSend (m : Master) (input : List ℕ) : Master :=
  if m.state ≠ LIN_STATE_BREAK then failStep m LIN_ERROR_STATE
  else
    match input with
    | [] => failStep m LIN_ERROR_TIMEOUT
    | b :: _ =>
      let m1 := { m with bufRx := m.bufRx.set 0 b }
      if b ≠ 0 then failStep m1 LIN_ERROR_ECHO
      else { m1 with state := LIN_STATE_FRAME }

/-- `LIN_Master::handlerReceive` (LIN_master.cpp lines 481-645).
`input` is the list of bytes available on the serial port when the
busy-wait window closes; the C code requires `available()` to equal
exactly `lenRx - 1` and otherwise reports a timeout.  The received
bytes are copied to `bufRx[1..lenRx-1]`; a master-request frame is
checked against its own echo over `lenTx` bytes, a slave response has
its 3-byte header echo and its checksum checked, and on success the
`rx_handler` callback is invoked once with the data length and the
data bytes — modelled as the `some` component of the result. -/
def handlerReceive (m : Master) (input : List ℕ) : Master × Option (ℕ × List ℕ) :=
  if m.state ≠ LIN_STATE_FRAME then (failStep m LIN_ERROR_STATE, none)
  else if input.length ≠ m.lenRx - 1 then (failStep m LIN_ERROR_TIMEOUT, none)
  else
    let m1 := { m with bufRx := writeBytes m.bufRx 1 input }
    if m.frameType = LIN_MASTER_REQUEST then
      if m1.bufRx.take m.lenTx ≠ m.bufTx.take m.lenTx then (failStep m1 LIN_ERROR_ECHO, none)
      else ({ m1 with state := LIN_STATE_IDLE }, none)
    else
      if m1.bufRx.take 3 ≠ m.bufTx.take 3 then (failStep m1 LIN_ERROR_ECHO, none)
      else
        if m1.bufRx.getD (m.lenRx - 1) 0 ≠
            checksum m.version (m1.bufRx.getD 2 0) (m.lenRx - 4) (m1.bufRx.drop 3) then
          (failStep m1 LIN_ERROR_CHK, none)
        else ({ m1 with state := LIN_STATE_IDLE },
          some (m.lenRx - 4, (m1.bufRx.drop 3).take (m.lenRx - 4)))

/-- `LIN_Master::end` (LIN_master.cpp lines 57-69): clear the latched
error, set the state machine to off, and close the serial port.  No
other member is touched. -/
def endMaster (m : Master) : Master :=
  { m with error := LIN_SUCCESS, state := LIN_STATE_OFF }

/-- `LIN_Master::getState` (LIN_master.h line 149): `return state;`
with C++ conversion of the enum value to `bool` (zero is false,
anything else true). -/
def getState (m : Master) : Bool :=
  statusCode m.state != 0

/-- Zeroing the first `n` cells of a buffer of at least `n` cells
makes the first `n` cells all zero. -/
theorem memsetZero_take (n : ℕ) (l : List ℕ) (h : n ≤ l.length) :
    (memsetZero n l).take n = List.replicate n 0 := by
  unfold memsetZero
  rw [min_eq_left h, List.take_append_of_le_length (by simp), List.take_replicate]
  simp

/-- `memsetZero` preserves the buffer length. -/
theorem memsetZero_length (n : ℕ) (l : List ℕ) :
    (memsetZero n l).length = l.length := by
  unfold memsetZero
  simp
  omega

/-- The failure epilogue forces the idle state, ORs in the flag,
keeps both lengths and the transmit buffer, and zeroes the first
`lenRx` receive-buffer bytes. -/
theorem failStep_spec (m : Master) (flag : ℕ) (h : m.lenRx ≤ m.bufRx.length) :
    (failStep m flag).state = LIN_STATE_IDLE ∧
    (failStep m flag).error = m.error ||| flag ∧
    (failStep m flag).lenRx = m.lenRx ∧
    (failStep m flag).lenTx = m.lenTx ∧
    (failStep m flag).bufTx = m.bufTx ∧
    (failStep m flag).bufRx.take m.lenRx = List.replicate m.lenRx 0 :=
  ⟨rfl, rfl, rfl, rfl, rfl, memsetZero_take _ _ h⟩

/-- `writeBytes` preserves the buffer length. -/
theorem writeBytes_length (bytes : List ℕ) :
    ∀ (buf : List ℕ) (pos : ℕ), (writeBytes buf pos bytes).length = buf.length := by
  induction bytes with
  | nil => intro buf pos; rfl
  | cons x xs ih =>
      intro buf pos
      show (writeBytes (buf.set pos x) (pos + 1) xs).length = buf.length
      rw [ih, List.length_set]

/-- `writeBytes` leaves the buffer untouched from any position at or
beyond the end of the written region. -/
theorem writeBytes_drop (bytes : List ℕ) :
    ∀ (buf : List ℕ) (pos n : ℕ), pos + bytes.length ≤ n →
      (writeBytes buf pos bytes).drop n = buf.drop n := by
  induction bytes with
  | nil => intro buf pos n _; rfl
  | cons x xs ih =>
      intro buf pos n h
      simp only [List.length_cons] at h
      show (writeBytes (buf.set pos x) (pos + 1) xs).drop n = buf.drop n
      rw [ih _ _ _ (by omega), List.drop_set_of_lt _ _ (by omega)]

/-- C4 counterexample: a request rejected for not being idle does NOT
leave the in-flight transaction's receive buffer unchanged — it zeroes
its first `lenRx` bytes.  Here the engine is mid-transaction (break
state) with a partially filled receive buffer. -/
theorem state_error_zeroes_bufRx_cex :
    ((sendMasterRequest
      { version := LIN_V2
        frameType := LIN_MASTER_REQUEST
        bufTx := List.replicate 12 0
        lenTx := 6
        bufRx := [0, 0x55, 0x50, 1, 2, 0xAC, 0, 0, 0, 0, 0, 0]
        lenRx := 6
        state := LIN_STATE_BREAK
        error := 0 } 0x10 2 [1, 2]).2 = some LIN_ERROR_STATE) ∧
    ((sendMasterRequest
      { version := LIN_V2
        frameType := LIN_MASTER_REQUEST
        bufTx := List.replicate 12 0
        lenTx := 6
        bufRx := [0, 0x55, 0x50, 1, 2, 0xAC, 0, 0, 0, 0, 0, 0]
        lenRx := 6
        state := LIN_STATE_BREAK
        error := 0 } 0x10 2 [1, 2]).1.bufRx ≠
      [0, 0x55, 0x50, 1, 2, 0xAC, 0, 0, 0, 0, 0, 0]) := by
  decide

/-- C4 amended: for every engine state other than idle,
`sendMasterRequest` and `receiveSlaveResponse` return the state error
and leave `bufTx`, `lenTx` and `lenRx` unchanged, but they zero the
first `lenRx` bytes of the receive buffer and force the state machine
back to idle, latching the state-error flag. -/
theorem state_error_effects (m : Master) (id numData : ℕ) (data : List ℕ)
    (h : m.state ≠ LIN_STATE_IDLE) :
    (sendMasterRequest m id numData data).2 = some LIN_ERROR_STATE ∧
    (sendMasterRequest m id numData data).1.bufTx = m.bufTx ∧
    (sendMasterRequest m id numData data).1.lenTx = m.lenTx ∧
    (sendMasterRequest m id numData data).1.lenRx = m.lenRx ∧
    (sendMasterRequest m id numData data).1.bufRx = memsetZero m.lenRx m.bufRx ∧
    (sendMasterRequest m id numData data).1.state = LIN_STATE_IDLE ∧
    (sendMasterRequest m id numData data).1.error = m.error ||| LIN_ERROR_STATE ∧
    (receiveSlaveResponse m id numData).2 = some LIN_ERROR_STATE ∧
    (receiveSlaveResponse m id numData).1.bufTx = m.bufTx ∧
    (receiveSlaveResponse m id numData).1.lenTx = m.lenTx ∧
    (receiveSlaveResponse m id numData).1.lenRx = m.lenRx ∧
    (receiveSlaveResponse m id numData).1.bufRx = memsetZero m.lenRx m.bufRx ∧
    (receiveSlaveResponse m id numData).1.state = LIN_STATE_IDLE ∧
    (receiveSlaveResponse m id numData).1.error = m.error ||| LIN_ERROR_STATE := by
  simp [sendMasterRequest, receiveSlaveResponse, failStep, h]

/-- Witness for the amended C4 at a concrete mid-transaction state. -/
theorem state_error_effects_witness :
    (sendMasterRequest
      { version := LIN_V1
        frameType := LIN_SLAVE_RESPONSE
        bufTx := List.replicate 12 0
        lenTx := 3
        bufRx := [0, 7, 7, 7, 7, 7, 7, 0, 0, 0, 0, 0]
        lenRx := 7
        state := LIN_STATE_FRAME
        error := 0 } 0x20 3 [1, 2, 3]).2 = some LIN_ERROR_STATE ∧
    (sendMasterRequest
      { version := LIN_V1
        frameType := LIN_SLAVE_RESPONSE
        bufTx := List.replicate 12 0
        lenTx := 3
        bufRx := [0, 7, 7, 7, 7, 7, 7, 0, 0, 0, 0, 0]
        lenRx := 7
        state := LIN_STATE_FRAME
        error := 0 } 0x20 3 [1, 2, 3]).1.state = LIN_STATE_IDLE := by
  have h := state_error_effects
    { version := LIN_V1
      frameType := LIN_SLAVE_RESPONSE
      bufTx := List.replicate 12 0
      lenTx := 3
      bufRx := [0, 7, 7, 7, 7, 7, 7, 0, 0, 0, 0, 0]
      lenRx := 7
      state := LIN_STATE_FRAME
      error := 0 } 0x20 3 [1, 2, 3] (by decide)
  exact ⟨h.1, h.2.2.2.2.2.1⟩

/-- C9 counterexample: `end` does not zero the transmit and receive
buffers — they keep their (non-zero) contents. -/
theorem end_preserves_buffers_cex :
    ((endMaster
      { version := LIN_V2
        frameType := LIN_SLAVE_RESPONSE
        bufTx := [0, 0x55, 7, 7, 7, 7, 0, 0, 0, 0, 0, 0]
        lenTx := 3
        bufRx := [0, 0x55, 7, 1, 2, 3, 0, 0, 0, 0, 0, 0]
        lenRx := 6
        state := LIN_STATE_FRAME
        error := 0 }).bufRx ≠ List.replicate 12 0) ∧
    ((endMaster
      { version := LIN_V2
        frameType := LIN_SLAVE_RESPONSE
        bufTx := [0, 0x55, 7, 7, 7, 7, 0, 0, 0, 0, 0, 0]
        lenTx := 3
        bufRx := [0, 0x55, 7, 1, 2, 3, 0, 0, 0, 0, 0, 0]
        lenRx := 6
        state := LIN_STATE_FRAME
        error := 0 }).bufTx ≠ List.replicate 12 0) := by
  decide

/-- C9 amended: after every call to `end` the engine state is off and
the latched error is cleared, so any in-flight transaction is
abandoned (its handlers can no longer run to completion), but the
transmit and receive buffers and their lengths keep their previous
contents — they are not zeroed. -/
theorem end_state_off (m : Master) :
    (endMaster m).state = LIN_STATE_OFF ∧
    (endMaster m).error = LIN_SUCCESS ∧
    (endMaster m).bufTx = m.bufTx ∧
    (endMaster m).bufRx = m.bufRx ∧
    (endMaster m).lenTx = m.lenTx ∧
    (endMaster m).lenRx = m.lenRx :=
  ⟨rfl, rfl, rfl, rfl, rfl, rfl⟩

/-- C10: `getState` collapses the four engine states to a boolean
that is false exactly in the off state and true for idle, break and
frame alike, so polling it cannot distinguish an idle engine from one
with a transaction in flight. -/
theorem getState_bool (m : Master) :
    (getState m = false ↔ m.state = LIN_STATE_OFF) ∧
    ((m.state = LIN_STATE_IDLE ∨ m.state = LIN_STATE_BREAK ∨ m.state = LIN_STATE_FRAME) →
      getState m = true) := by
  cases h : m.state <;> simp [getState, statusCode, h]

/-- C5: on every failure path of the two step handlers (wrong state,
break-echo timeout, wrong break-echo byte, frame-body timeout, frame
or header echo mismatch, checksum mismatch) the engine latches the
corresponding error flag, reverts to idle, and zeroes the first
`lenRx` bytes of its receive buffer; in particular, when the byte
count available at the end of the timing budget is not the expected
one the engine ends idle with the timeout flag set and a zeroed
receive buffer. -/
theorem failure_paths_recover (m : Master) (input : List ℕ)
    (hbuf : m.bufRx.length = 12) (hrx : m.lenRx ≤ 12) :
    (m.state ≠ LIN_STATE_BREAK →
      (handlerSend m input).state = LIN_STATE_IDLE ∧
      (handlerSend m input).error = m.error ||| LIN_ERROR_STATE ∧
      (handlerSend m input).bufRx.take m.lenRx = List.replicate m.lenRx 0) ∧
    (m.state = LIN_STATE_BREAK → input = [] →
      (handlerSend m input).state = LIN_STATE_IDLE ∧
      (handlerSend m input).error = m.error ||| LIN_ERROR_TIMEOUT ∧
      (handlerSend m input).bufRx.take m.lenRx = List.replicate m.lenRx 0) ∧
    (∀ b rest, m.state = LIN_STATE_BREAK → input = b :: rest → b ≠ 0 →
      (handlerSend m input).state = LIN_STATE_IDLE ∧
      (handlerSend m input).error = m.error ||| LIN_ERROR_ECHO ∧
      (handlerSend m input).bufRx.take m.lenRx = List.replicate m.lenRx 0) ∧
    (m.state ≠ LIN_STATE_FRAME →
      (handlerReceive m input).1.state = LIN_STATE_IDLE ∧
      (handlerReceive m input).1.error = m.error ||| LIN_ERROR_STATE ∧
      (handlerReceive m input).1.bufRx.take m.lenRx = List.replicate m.lenRx 0) ∧
    (m.state = LIN_STATE_FRAME → input.length ≠ m.lenRx - 1 →
      (handlerReceive m input).1.state = LIN_STATE_IDLE ∧
      (handlerReceive m input).1.error = m.error ||| LIN_ERROR_TIMEOUT ∧
      (handlerReceive m input).1.bufRx.take m.lenRx = List.replicate m.lenRx 0) ∧
    (m.state = LIN_STATE_FRAME → input.length = m.lenRx - 1 →
      m.frameType = LIN_MASTER_REQUEST →
      (writeBytes m.bufRx 1 input).take m.lenTx ≠ m.bufTx.take m.lenTx →
      (handlerReceive m input).1.state = LIN_STATE_IDLE ∧
      (handlerReceive m input).1.error = m.error ||| LIN_ERROR_ECHO ∧
      (handlerReceive m input).1.bufRx.take m.lenRx = List.replicate m.lenRx 0) ∧
    (m.state = LIN_STATE_FRAME → input.length = m.lenRx - 1 →
      m.frameType = LIN_SLAVE_RESPONSE →
      (writeBytes m.bufRx 1 input).take 3 ≠ m.bufTx.take 3 →
      (handlerReceive m input).1.state = LIN_STATE_IDLE ∧
      (handlerReceive m input).1.error = m.error ||| LIN_ERROR_ECHO ∧
      (handlerReceive m input).1.bufRx.take m.lenRx = List.replicate m.lenRx 0) ∧
    (m.state = LIN_STATE_FRAME → input.length = m.lenRx - 1 →
      m.frameType = LIN_SLAVE_RESPONSE →
      (writeBytes m.bufRx 1 input).take 3 = m.bufTx.take 3 →
      (writeBytes m.bufRx 1 input).getD (m.lenRx - 1) 0 ≠
        checksum m.version ((writeBytes m.bufRx 1 input).getD 2 0) (m.lenRx - 4)
          ((writeBytes m.bufRx 1 input).drop 3) →
      (handlerReceive m input).1.state = LIN_STATE_IDLE ∧
      (handlerReceive m input).1.error = m.error ||| LIN_ERROR_CHK ∧
      (handlerReceive m input).1.bufRx.take m.lenRx = List.replicate m.lenRx 0) := by
  refine ⟨?_, ?_, ?_, ?_, ?_, ?_, ?_, ?_⟩
  · intro hstate
    have he : handlerSend m input = failStep m LIN_ERROR_STATE := by
      unfold handlerSend
      simp [hstate]
    rw [he]
    obtain ⟨h1, h2, _, _, _, h6⟩ := failStep_spec m LIN_ERROR_STATE (by omega)
    exact ⟨h1, h2, h6⟩
  · intro hstate hin
    have he : handlerSend m input = failStep m LIN_ERROR_TIMEOUT := by
      unfold handlerSend
      simp [hstate, hin]
    rw [he]
    obtain ⟨h1, h2, _, _, _, h6⟩ := failStep_spec m LIN_ERROR_TIMEOUT (by omega)
    exact ⟨h1, h2, h6⟩
  · intro b rest hstate hin hb
    have he : handlerSend m input =
        failStep { m with bufRx := m.bufRx.set 0 b } LIN_ERROR_ECHO := by
      unfold handlerSend
      simp [hstate, hin, hb]
    rw [he]
    obtain ⟨h1, h2, _, _, _, h6⟩ :=
      failStep_spec { m with bufRx := m.bufRx.set 0 b } LIN_ERROR_ECHO
        (by simp [List.length_set]; omega)
    exact ⟨h1, h2, h6⟩
  · intro hstate
    have he : (handlerReceive m input).1 = failStep m LIN_ERROR_STATE := by
      unfold handlerReceive
      simp [hstate]
    rw [he]
    obtain ⟨h1, h2, _, _, _, h6⟩ := failStep_spec m LIN_ERROR_STATE (by omega)
    exact ⟨h1, h2, h6⟩
  · intro hstate hlen
    have he : (handlerReceive m input).1 = failStep m LIN_ERROR_TIMEOUT := by
      unfold handlerReceive
      simp [hstate, hlen]
    rw [he]
    obtain ⟨h1, h2, _, _, _, h6⟩ := failStep_spec m LIN_ERROR_TIMEOUT (by omega)
    exact ⟨h1, h2, h6⟩
  · intro hstate hlen hf hne
    have he : (handlerReceive m input).1 =
        failStep { m with bufRx := writeBytes m.bufRx 1 input } LIN_ERROR_ECHO := by
      unfold handlerReceive
      simp [hstate, hlen, hf, hne]
    rw [he]
    obtain ⟨h1, h2, _, _, _, h6⟩ :=
      failStep_spec { m with bufRx := writeBytes m.bufRx 1 input } LIN_ERROR_ECHO
        (by simp [writeBytes_length, hbuf]; omega)
    exact ⟨h1, h2, h6⟩
  · intro hstate hlen hf hne
    have he : (handlerReceive m input).1 =
        failStep { m with bufRx := writeBytes m.bufRx 1 input } LIN_ERROR_ECHO := by
      unfold handlerReceive
      simp [hstate, hlen, hf, hne]
    rw [he]
    obtain ⟨h1, h2, _, _, _, h6⟩ :=
      failStep_spec { m with bufRx := writeBytes m.bufRx 1 input } LIN_ERROR_ECHO
        (by simp [writeBytes_length, hbuf]; omega)
    exact ⟨h1, h2, h6⟩
  · intro hstate hlen hf hhdr hchk
    have he : (handlerReceive m input).1 =
        failStep { m with bufRx := writeBytes m.bufRx 1 input } LIN_ERROR_CHK := by
      unfold handlerReceive
      simp only [List.getD_eq_getElem?_getD] at hchk
      simp [hstate, hlen, hf, hhdr, hchk]
    rw [he]
    obtain ⟨h1, h2, _, _, _, h6⟩ :=
      failStep_spec { m with bufRx := writeBytes m.bufRx 1 input } LIN_ERROR_CHK
        (by simp [writeBytes_length, hbuf]; omega)
    exact ⟨h1, h2, h6⟩

/-- Witness for C5: a frame-state engine expecting 5 more bytes that
receives none ends idle with the timeout flag and a zeroed receive
buffer. -/
theorem failure_paths_recover_witness :
    (handlerReceive
      { version := LIN_V2
        frameType := LIN_MASTER_REQUEST
        bufTx := List.replicate 12 0
        lenTx := 6
        bufRx := [0, 9, 9, 9, 9, 9, 0, 0, 0, 0, 0, 0]
        lenRx := 6
        state := LIN_STATE_FRAME
        error := 0 } []).1.state = LIN_STATE_IDLE ∧
    (handlerReceive
      { version := LIN_V2
        frameType := LIN_MASTER_REQUEST
        bufTx := List.replicate 12 0
        lenTx := 6
        bufRx := [0, 9, 9, 9, 9, 9, 0, 0, 0, 0, 0, 0]
        lenRx := 6
        state := LIN_STATE_FRAME
        error := 0 } []).1.error = 0 ||| LIN_ERROR_TIMEOUT ∧
    (handlerReceive
      { version := LIN_V2
        frameType := LIN_MASTER_REQUEST
        bufTx := List.replicate 12 0
        lenTx := 6
        bufRx := [0, 9, 9, 9, 9, 9, 0, 0, 0, 0, 0, 0]
        lenRx := 6
        state := LIN_STATE_FRAME
        error := 0 } []).1.bufRx.take 6 = List.replicate 6 0 := by
  have h := failure_paths_recover
    { version := LIN_V2
      frameType := LIN_MASTER_REQUEST
      bufTx := List.replicate 12 0
      lenTx := 6
      bufRx := [0, 9, 9, 9, 9, 9, 0, 0, 0, 0, 0, 0]
      lenRx := 6
      state := LIN_STATE_FRAME
      error := 0 } [] (by decide) (by decide)
  exact h.2.2.2.2.1 rfl (by decide)

/-- C6: none of the four engine entry points ever clears a latched
error bit: every error bit set before a call to `sendMasterRequest`,
`receiveSlaveResponse`, `handlerSend` or `handlerReceive` is still set
after it, on every path. -/
theorem error_flags_monotone (m : Master) (id numData : ℕ) (data input : List ℕ) (i : ℕ)
    (h : m.error.testBit i = true) :
    (sendMasterRequest m id numData data).1.error.testBit i = true ∧
    (receiveSlaveResponse m id numData).1.error.testBit i = true ∧
    (handlerSend m input).error.testBit i = true ∧
    (handlerReceive m input).1.error.testBit i = true := by
  refine ⟨?_, ?_, ?_, ?_⟩
  · unfold sendMasterRequest failStep
    split <;> simp [Nat.testBit_or, h]
  · unfold receiveSlaveResponse failStep
    split <;> simp [Nat.testBit_or, h]
  · unfold handlerSend failStep
    split
    · simp [Nat.testBit_or, h]
    · split
      · simp [Nat.testBit_or, h]
      · dsimp only
        split
        · simp [Nat.testBit_or, h]
        · simp [Nat.testBit_or, h]
  · simp only [handlerReceive, failStep]
    split_ifs <;> simp [Nat.testBit_or, h]

/-- Witness for C6: a previously latched echo error (bit 1) survives
all four calls on a concrete engine state. -/
theorem error_flags_monotone_witness :
    (sendMasterRequest
      { version := LIN_V2
        frameType := LIN_MASTER_REQUEST
        bufTx := List.replicate 12 0
        lenTx := 6
        bufRx := List.replicate 12 0
        lenRx := 6
        state := LIN_STATE_IDLE
        error := 2 } 0x10 2 [1, 2]).1.error.testBit 1 = true ∧
    (handlerReceive
      { version := LIN_V2
        frameType := LIN_MASTER_REQUEST
        bufTx := List.replicate 12 0
        lenTx := 6
        bufRx := List.replicate 12 0
        lenRx := 6
        state := LIN_STATE_IDLE
        error := 2 } []).1.error.testBit 1 = true := by
  have h := error_flags_monotone
    { version := LIN_V2
      frameType := LIN_MASTER_REQUEST
      bufTx := List.replicate 12 0
      lenTx := 6
      bufRx := List.replicate 12 0
      lenRx := 6
      state := LIN_STATE_IDLE
      error := 2 } 0x10 2 [1, 2] [] 1 (by decide)
  exact ⟨h.1, h.2.2.2⟩

/-- C7: the receive callback fires exactly when a slave-response
transaction completes successfully — the engine is in the frame state
with a slave-response frame, exactly the expected byte count arrived,
the 3-byte header echo matches, and the received checksum matches the
recomputed one — and then it fires once, with the received data length
and the received data bytes; on every failure path and for every
master-request frame no callback fires. -/
theorem rx_handler_iff_success (m : Master) (input : List ℕ) :
    (handlerReceive m input).2 =
      (if m.state = LIN_STATE_FRAME ∧ m.frameType = LIN_SLAVE_RESPONSE ∧
          input.length = m.lenRx - 1 ∧
          (writeBytes m.bufRx 1 input).take 3 = m.bufTx.take 3 ∧
          (writeBytes m.bufRx 1 input).getD (m.lenRx - 1) 0 =
            checksum m.version ((writeBytes m.bufRx 1 input).getD 2 0) (m.lenRx - 4)
              ((writeBytes m.bufRx 1 input).drop 3)
        then some (m.lenRx - 4, ((writeBytes m.bufRx 1 input).drop 3).take (m.lenRx - 4))
        else none) := by
  by_cases h1 : m.state = LIN_STATE_FRAME
  · by_cases h2 : input.length = m.lenRx - 1
    · cases hf : m.frameType with
      | LIN_MASTER_REQUEST =>
          simp only [handlerReceive, h1, h2, hf]
          split_ifs <;> simp_all
      | LIN_SLAVE_RESPONSE =>
          by_cases h4 : (writeBytes m.bufRx 1 input).take 3 = m.bufTx.take 3
          · by_cases h5 : (writeBytes m.bufRx 1 input).getD (m.lenRx - 1) 0 =
                checksum m.version ((writeBytes m.bufRx 1 input).getD 2 0) (m.lenRx - 4)
                  ((writeBytes m.bufRx 1 input).drop 3)
            · have h5' := h5
              simp only [List.getD_eq_getElem?_getD] at h5'
              simp [handlerReceive, h1, h2, hf, h4, h5, h5']
            · have h5' := h5
              simp only [List.getD_eq_getElem?_getD] at h5'
              simp [handlerReceive, h1, h2, hf, h4, h5, h5']
          · simp [handlerReceive, h1, h2, hf, h4]
    · simp [handlerReceive, h1, h2]
  · simp [handlerReceive, h1]

/-- C8 counterexample: the engine does not enforce the data-model
invariant by itself.  `sendMasterRequest` performs no range check on
`numData`, so a request with 9 payload bytes issued from the idle
state is accepted (no state error is returned and the engine moves to
the break state) and computes `lenTx = lenRx = 13 > 12`, the declared
capacity of `bufTx` and `bufRx`; the checksum write then targets
`bufTx[3+9] = bufTx[12]`, one past the end of the 12-byte array. -/
theorem request_bounds_overflow_cex :
    ((sendMasterRequest
      { version := LIN_V2
        frameType := LIN_MASTER_REQUEST
        bufTx := List.replicate 12 0
        lenTx := 0
        bufRx := List.replicate 12 0
        lenRx := 0
        state := LIN_STATE_IDLE
        error := 0 } 0x10 9 [1, 2, 3, 4, 5, 6, 7, 8, 9]).2 = none) ∧
    ((sendMasterRequest
      { version := LIN_V2
        frameType := LIN_MASTER_REQUEST
        bufTx := List.replicate 12 0
        lenTx := 0
        bufRx := List.replicate 12 0
        lenRx := 0
        state := LIN_STATE_IDLE
        error := 0 } 0x10 9 [1, 2, 3, 4, 5, 6, 7, 8, 9]).1.state = LIN_STATE_BREAK) ∧
    ((sendMasterRequest
      { version := LIN_V2
        frameType := LIN_MASTER_REQUEST
        bufTx := List.replicate 12 0
        lenTx := 0
        bufRx := List.replicate 12 0
        lenRx := 0
        state := LIN_STATE_IDLE
        error := 0 } 0x10 9 [1, 2, 3, 4, 5, 6, 7, 8, 9]).1.lenTx = 13) ∧
    ¬((sendMasterRequest
      { version := LIN_V2
        frameType := LIN_MASTER_REQUEST
        bufTx := List.replicate 12 0
        lenTx := 0
        bufRx := List.replicate 12 0
        lenRx := 0
        state := LIN_STATE_IDLE
        error := 0 } 0x10 9 [1, 2, 3, 4, 5, 6, 7, 8, 9]).1.lenTx ≤ 12) ∧
    ¬(3 + 9 <
      (sendMasterRequest
        { version := LIN_V2
          frameType := LIN_MASTER_REQUEST
          bufTx := List.replicate 12 0
          lenTx := 0
          bufRx := List.replicate 12 0
          lenRx := 0
          state := LIN_STATE_IDLE
          error := 0 } 0x10 9 [1, 2, 3, 4, 5, 6, 7, 8, 9]).1.bufTx.length) := by
  decide

/-- C8 amended: for every request whose payload is within the
documented range of 0-8 bytes, an accepted `sendMasterRequest`
computes `lenTx = lenRx = numData + 4 ≤ 12`, and an accepted
`receiveSlaveResponse` computes `lenTx = 3` and `lenRx = 4 + numData
≤ 12`; the transmit-buffer writes stay below `lenTx` (the buffer keeps
its length and is untouched from `lenTx` on) and the receive buffer is
untouched.  The engine itself performs no range check, so this
invariant is conditional on the caller honouring the documented
payload range. -/
theorem accepted_request_bounds (m : Master) (id numData : ℕ) (data : List ℕ)
    (hidle : m.state = LIN_STATE_IDLE) (hnum : numData ≤ 8) :
    (sendMasterRequest m id numData data).1.lenTx ≤ 12 ∧
    (sendMasterRequest m id numData data).1.lenRx ≤ 12 ∧
    (sendMasterRequest m id numData data).1.bufTx.length = m.bufTx.length ∧
    (sendMasterRequest m id numData data).1.bufTx.drop
        (sendMasterRequest m id numData data).1.lenTx =
      m.bufTx.drop (sendMasterRequest m id numData data).1.lenTx ∧
    (sendMasterRequest m id numData data).1.bufRx = m.bufRx ∧
    (receiveSlaveResponse m id numData).1.lenTx ≤ 12 ∧
    (receiveSlaveResponse m id numData).1.lenRx ≤ 12 ∧
    (receiveSlaveResponse m id numData).1.bufTx.length = m.bufTx.length ∧
    (receiveSlaveResponse m id numData).1.bufTx.drop
        (receiveSlaveResponse m id numData).1.lenTx =
      m.bufTx.drop (receiveSlaveResponse m id numData).1.lenTx ∧
    (receiveSlaveResponse m id numData).1.bufRx = m.bufRx := by
  simp only [sendMasterRequest, receiveSlaveResponse, hidle]
  refine ⟨?_, ?_, ?_, ?_, ?_, ?_, ?_, ?_, ?_, ?_⟩ <;> simp
  · omega
  · omega
  · rw [writeBytes_length]
    simp
  · rw [List.drop_set_of_lt _ _ (by omega),
      writeBytes_drop _ _ _ _ (by simp [List.length_take]; omega),
      List.drop_set_of_lt _ _ (by omega),
      List.drop_set_of_lt _ _ (by omega),
      List.drop_set_of_lt _ _ (by omega)]
  · omega
  · rw [List.drop_set_of_lt _ _ (by omega),
      List.drop_set_of_lt _ _ (by omega),
      List.drop_set_of_lt _ _ (by omega)]

/-- Witness for C8 at a concrete accepted request with an 8-byte
payload: the computed lengths hit exactly the capacity of 12. -/
theorem accepted_request_bounds_witness :
    (sendMasterRequest
      { version := LIN_V2
        frameType := LIN_MASTER_REQUEST
        bufTx := List.replicate 12 0
        lenTx := 0
        bufRx := List.replicate 12 0
        lenRx := 0
        state := LIN_STATE_IDLE
        error := 0 } 0x10 8 [1, 2, 3, 4, 5, 6, 7, 8]).1.lenTx ≤ 12 ∧
    (sendMasterRequest
      { version := LIN_V2
        frameType := LIN_MASTER_REQUEST
        bufTx := List.replicate 12 0
        lenTx := 0
        bufRx := List.replicate 12 0
        lenRx := 0
        state := LIN_STATE_IDLE
        error := 0 } 0x10 8 [1, 2, 3, 4, 5, 6, 7, 8]).1.lenRx ≤ 12 := by
  have h := accepted_request_bounds
    { version := LIN_V2
      frameType := LIN_MASTER_REQUEST
      bufTx := List.replicate 12 0
      lenTx := 0
      bufRx := List.replicate 12 0
      lenRx := 0
      state := LIN_STATE_IDLE
      error := 0 } 0x10 8 [1, 2, 3, 4, 5, 6, 7, 8] rfl (by decide)
  exact ⟨h.1, h.2.1⟩

/-- Witness for C10: an engine with a frame in flight polls as true,
exactly like an idle one. -/
theorem getState_bool_witness :
    getState
      { version := LIN_V2
        frameType := LIN_MASTER_REQUEST
        bufTx := List.replicate 12 0
        lenTx := 6
        bufRx := List.replicate 12 0
        lenRx := 6
        state := LIN_STATE_FRAME
        error := 0 } = true :=
  (getState_bool _).2 (Or.inr (Or.inr rfl))

end LIN
